import Mathlib

/-
Shallow embedding of the `ratelimiter` Go package (file `methods.go`).

Modelling conventions:
- `time.Duration` values and `time.Time` instants are integer nanosecond
  counts (`Int`); the zero value of `time.Time` is the instant `0`, so
  `t.IsZero()` becomes `t = 0` and `time.Since(t)` at instant `now`
  becomes `now - t`.
- `time.Second` and `time.Minute` are the constants `second` and `minute`.
- Go pointers that may be nil are `Option`; dereferencing a nil pointer
  (a Go panic) is modelled by the operation returning `none` at its
  outer `Option` layer.
- The Go map `map[int64]*UserStatus` is an association list
  `List (Int × Option UserStatus)`; stored values are `Option UserStatus`
  because the map stores pointers (a stored nil pointer is `some` entry
  with value `none`).  A nil map itself is `none` at the outer layer:
  reads of a nil map yield the zero value, writes to a nil map panic,
  exactly as in Go.
- `sync.RWMutex` carries no data in a sequential model; only its
  presence matters (`mutex : Bool`, `true` = the pointer is non-nil).
  Locking a nil mutex panics.
- The opaque callback types `filters.Message` and `handlers.Response`
  are never invoked by the functions modelled here, so they are
  represented by abstract handles (`Nat`).
- Methods that mutate their receiver return the updated value.
-/

namespace Ratelimiter

def second : Int := 1000000000

def minute : Int := 60 * second

/-- The `customIgnore` record installed by `AddCustomIgnore`. -/
structure customIgnore where
  startTime : Int
  duration : Int
  ignoreException : Bool
  deriving DecidableEq

/-- Per-identity flood bookkeeping (`UserStatus`); only the fields
read or written by the modelled methods are carried. -/
structure UserStatus where
  Last : Int
  limited : Bool
  custom : Option customIgnore
  deriving DecidableEq

/-- The `Limiter` struct: lifecycle flags, registry (map + lock),
configuration fields and callback lists. -/
structure Limiter where
  isEnabled : Bool
  isStopped : Bool
  mutex : Bool
  userMap : Option (List (Int × Option UserStatus))
  timeout : Int
  punishment : Int
  maxCount : Int
  maxTimeout : Int
  TextOnly : Bool
  exceptionIDs : List Int
  ignoredExceptions : List Int
  conditions : List Nat
  exceptions : List Nat
  triggers : List Nat
  deriving DecidableEq

/-- Go map read `m[id]`: the stored value when the key is present
(possibly a stored nil pointer), the zero value (`none`) otherwise. -/
def mapGet : List (Int × Option UserStatus) → Int → Option UserStatus
  | [], _ => none
  | (k, v) :: rest, id => if k = id then v else mapGet rest id

/-- Go map write `m[id] = v`: replace the value when the key is
present, append the binding otherwise. -/
def mapSet : List (Int × Option UserStatus) → Int → Option UserStatus →
    List (Int × Option UserStatus)
  | [], id, v => [(id, v)]
  | (k, w) :: rest, id, v =>
    if k = id then (k, v) :: rest else (k, w) :: mapSet rest id v

/-- `Stop` (methods.go 49-68): no-op when already stopped; otherwise
flips the flags and, when the mutex is non-nil, releases the map and
the mutex. -/
def Stop (l : Limiter) : Limiter :=
  if l.isStopped then l
  else
    let l1 := { l with isEnabled := false, isStopped := true }
    if l1.mutex then { l1 with userMap := none, mutex := false } else l1

/-- `GetStatus` (methods.go 229-236): takes `l.mutex.RLock()` — a Go
panic (`none`) when the mutex is nil — then reads the map (a nil-map
read yields the zero value). -/
def GetStatus (l : Limiter) (id : Int) : Option (Option UserStatus) :=
  if l.mutex = false then none
  else some (match l.userMap with
    | none => none
    | some m => mapGet m id)

/-- `SetFloodWaitTime` (methods.go 245-247). -/
def SetFloodWaitTime (l : Limiter) (d : Int) : Limiter :=
  { l with timeout := d }

/-- `SetPunishmentDuration` (methods.go 258-260). -/
def SetPunishmentDuration (l : Limiter) (d : Int) : Limiter :=
  { l with punishment := d }

/-- `SetMaxCacheDuration` (methods.go 276-282). -/
def SetMaxCacheDuration (l : Limiter) (d : Int) : Limiter :=
  if d > l.punishment + l.timeout then { l with maxTimeout := d }
  else { l with maxTimeout := l.punishment + l.timeout + minute }

/-- `SetDefaultInterval` (methods.go 288-290). -/
def SetDefaultInterval (l : Limiter) : Limiter :=
  { l with maxTimeout := l.punishment + l.timeout + minute }

/-- `AddExceptionID` (methods.go 164-166): a plain variadic append. -/
def AddExceptionID (l : Limiter) (ids : List Int) : Limiter :=
  { l with exceptionIDs := l.exceptionIDs ++ ids }

/-- `IsInExceptionList` (methods.go 202-214). -/
def IsInExceptionList (l : Limiter) (id : Int) : Bool :=
  if l.exceptionIDs.isEmpty then false
  else l.exceptionIDs.any (fun ex => ex = id)

/-- `addIgnoredExceptions` (methods.go 447-458): append when the list
is empty, otherwise scan and append only when absent. -/
def addIgnoredExceptions (l : Limiter) (id : Int) : Limiter :=
  if l.ignoredExceptions.isEmpty then
    { l with ignoredExceptions := l.ignoredExceptions ++ [id] }
  else if l.ignoredExceptions.contains id then l
  else { l with ignoredExceptions := l.ignoredExceptions ++ [id] }

/-- The splice `append(xs[:i], xs[i+1:]...)` at the first index whose
element equals `id` (methods.go 464-469). -/
def removeFirst : List Int → Int → List Int
  | [], _ => []
  | x :: xs, id => if x = id then xs else x :: removeFirst xs id

/-- `removeFromIgnoredExceptions` (methods.go 460-470). -/
def removeFromIgnoredExceptions (l : Limiter) (id : Int) : Limiter :=
  if l.ignoredExceptions.isEmpty then l
  else { l with ignoredExceptions := removeFirst l.ignoredExceptions id }

/-- `AddCustomIgnore` (methods.go 292-320): locks the mutex (panic when
nil), reads the status; when absent, creates a zero `UserStatus` with
the custom record and writes it into the map — a write that panics on a
nil map; when present, replaces the status's custom record in place.
Either way, `ignoreExceptions = true` also adds the id to the
ignored-exceptions list. -/
def AddCustomIgnore (l : Limiter) (id : Int) (d : Int)
    (ignoreExceptions : Bool) (now : Int) : Option Limiter :=
  if l.mutex = false then none
  else
    match l.userMap with
    | none => none
    | some m =>
      match mapGet m id with
      | none =>
        let status : UserStatus :=
          { Last := 0, limited := false,
            custom := some ⟨now, d, ignoreExceptions⟩ }
        let l1 := { l with userMap := some (mapSet m id (some status)) }
        some (if ignoreExceptions then addIgnoredExceptions l1 id else l1)
      | some st =>
        let st1 := { st with custom := some (⟨now, d, ignoreExceptions⟩ : customIgnore) }
        let l1 := { l with userMap := some (mapSet m id (some st1)) }
        some (if ignoreExceptions then addIgnoredExceptions l1 id else l1)

/-- `RemoveCustomIgnore` (methods.go 322-335): locks the mutex (panic
when nil); quiet return when the status or its custom record is absent;
otherwise removes the id from the ignored-exceptions list when the
record had `ignoreException` set, then clears the record. -/
def RemoveCustomIgnore (l : Limiter) (id : Int) : Option Limiter :=
  if l.mutex = false then none
  else
    let status := match l.userMap with
      | none => none
      | some m => mapGet m id
    match status with
    | none => some l
    | some st =>
      match st.custom with
      | none => some l
      | some c =>
        let l1 := if c.ignoreException
          then removeFromIgnoredExceptions l id else l
        let st1 := { st with custom := none }
        some { l1 with userMap := l1.userMap.map (fun m => mapSet m id (some st1)) }

/-- `IsCustomLimited` (methods.go 515-526): false when no custom
record; when the record has expired (elapsed strictly above a non-zero
duration) it is cleared and the result is false; otherwise true. -/
def IsCustomLimited (s : UserStatus) (now : Int) : Bool × UserStatus :=
  match s.custom with
  | none => (false, s)
  | some c =>
    if now - c.startTime > c.duration ∧ c.duration ≠ 0 then
      (false, { s with custom := none })
    else (true, s)

/-- `canBeDeleted` (methods.go 528-531).  The Go `||` / `&&` operators
short-circuit, so `IsCustomLimited` (and its side effect) runs only
when `Last` is non-zero, the age exceeds the timeout and the status is
not limited. -/
def canBeDeleted (s : UserStatus) (l : Limiter) (now : Int) : Bool × UserStatus :=
  if s.Last = 0 then (true, s)
  else if now - s.Last > l.timeout ∧ s.limited = false then
    let r := IsCustomLimited s now
    (!r.1, r.2)
  else (false, s)

/-- The fragment of `gotgbot.User` read by the modelled methods. -/
structure User where
  Id : Int
  deriving DecidableEq

/-- The fragment of `gotgbot.Chat` read by the modelled methods. -/
structure Chat where
  Id : Int
  deriving DecidableEq

/-- The fragment of `gotgbot.Message` read by the modelled methods;
`From` may be nil. -/
structure Message where
  From : Option User
  Chat : Chat
  Text : String
  deriving DecidableEq

/-- The fragment of the callback query's message object: only
`GetChat()` is called on it. -/
structure CQMessage where
  Chat : Chat
  deriving DecidableEq

def CQMessage.GetChat (m : CQMessage) : Ratelimiter.Chat := m.Chat

/-- The fragment of `gotgbot.CallbackQuery` read by the modelled
methods; `Message` may be nil, `From` is a value (never nil). -/
structure CallbackQuery where
  From : User
  Message : Option CQMessage
  deriving DecidableEq

/-- `isException` (methods.go 362-381): false when the exception list
is empty or the message pointer is nil; otherwise a linear scan
matching the sender id (when `From` is non-nil) or the chat id. -/
def isException (l : Limiter) (msg : Option Message) : Bool :=
  if l.exceptionIDs.isEmpty || msg.isNone then false
  else
    match msg with
    | none => false
    | some m =>
      l.exceptionIDs.any (fun ex =>
        match m.From with
        | some u => ex = u.Id || ex = m.Chat.Id
        | none => ex = m.Chat.Id)

/-- `isExceptionQuery` (methods.go 393-405): false when the exception
list is empty or the query pointer is nil; otherwise a linear scan
matching the query sender id or (when the query's message is non-nil)
its chat id. -/
def isExceptionQuery (l : Limiter) (cq : Option CallbackQuery) : Bool :=
  if l.exceptionIDs.isEmpty || cq.isNone then false
  else
    match cq with
    | none => false
    | some q =>
      l.exceptionIDs.any (fun ex =>
        ex = q.From.Id ||
          (match q.Message with
           | some qm => ex = qm.GetChat.Id
           | none => false))

/-- The loop kinds a `checker` iteration can end with: `exitLoop` when
the goroutine dies (loop condition false, or the defensive nil-registry
return), `continueLoop` when the loop body runs to its end or hits
`continue`. -/
inductive StepKind where
  | exitLoop
  | continueLoop
  deriving DecidableEq

/-- Lines 477-482 of `checker`: a sub-second interval is reset to the
default before the `time.Sleep` call. -/
def checkerPreSleep (l : Limiter) : Limiter :=
  if l.maxTimeout < second then SetDefaultInterval l else l

/-- The sweep at lines 498-502: every nil entry and every entry whose
`canBeDeleted` holds is deleted; `canBeDeleted`'s side effect on a
surviving status is kept. -/
def reap (l : Limiter) (now : Int)
    (m : List (Int × Option UserStatus)) : List (Int × Option UserStatus) :=
  m.filterMap (fun e =>
    match e.2 with
    | none => none
    | some s =>
      let r := canBeDeleted s l now
      if r.1 then none else some (e.1, some r.2))

/-- The part of a `checker` iteration after `time.Sleep` returns
(methods.go 485-503): the defensive nil-registry check exits the
goroutine quietly; an empty map continues; otherwise the mutex is
locked (a panic — `none` — when nil, though the nil check has already
ruled that out) and the registry is swept. -/
def checkerAfterSleep (l : Limiter) (now : Int) : Option (StepKind × Limiter) :=
  if l.userMap = none ∨ l.mutex = false then
    some (StepKind.exitLoop, l)
  else if (match l.userMap with | none => 0 | some m => m.length) = 0 then
    some (StepKind.continueLoop, l)
  else if l.mutex = false then none
  else
    some (StepKind.continueLoop,
      { l with userMap := l.userMap.map (reap l now) })

/-- One full pass of the `checker` loop (methods.go 475-505): the loop
condition, the interval fix-up, the sleep (whose duration is the first
component of the result), and the post-sleep body. -/
def checkerStep (l : Limiter) (now : Int) :
    Option (Option Int × StepKind × Limiter) :=
  if l.isEnabled && !l.isStopped then
    let l1 := checkerPreSleep l
    (checkerAfterSleep l1 now).map (fun r => (some l1.maxTimeout, r.1, r.2))
  else some (none, StepKind.exitLoop, l)

/-- Spec-side predicate, following the spec's words: a custom override
is active when it is present and not expired, where expired means a
non-zero duration strictly exceeded by the elapsed time. -/
def hasActiveCustom (s : UserStatus) (now : Int) : Bool :=
  match s.custom with
  | none => false
  | some c => !(decide (now - c.startTime > c.duration) && decide (c.duration ≠ 0))

/-- A concrete running limiter used by witnesses and counterexamples:
window 10s, punishment 30s, an empty registry with its lock present. -/
def baseLimiter : Limiter :=
  { isEnabled := true, isStopped := false, mutex := true, userMap := some [],
    timeout := 10 * second, punishment := 30 * second, maxCount := 3,
    maxTimeout := 100 * second, TextOnly := false,
    exceptionIDs := [], ignoredExceptions := [],
    conditions := [], exceptions := [], triggers := [] }

/-- A status as created by `AddCustomIgnore` on a never-seen identity:
zero last-seen, not limited, an indefinite (zero-duration) custom
override. -/
def overriddenFresh : UserStatus :=
  { Last := 0, limited := false,
    custom := some { startTime := 0, duration := 0, ignoreException := false } }

/-- A running limiter misconfigured through the public setters:
`SetPunishmentDuration(-time.Minute)` and a zero reaper interval. -/
def hotLimiter : Limiter :=
  { baseLimiter with maxTimeout := 0, punishment := -minute, timeout := 0 }

/-- A non-stopped limiter whose mutex pointer is nil. -/
def noLockLimiter : Limiter := { baseLimiter with mutex := false }

/-- A limiter whose ignored-exceptions list already holds two ids. -/
def ignoredPair : Limiter := { baseLimiter with ignoredExceptions := [5, 6] }

theorem isCustomLimited_fst (s : UserStatus) (now : Int) :
    (IsCustomLimited s now).1 = hasActiveCustom s now := by
  unfold IsCustomLimited hasActiveCustom
  cases hc : s.custom with
  | none => rfl
  | some c =>
    by_cases h : now - c.startTime > c.duration ∧ c.duration ≠ 0
    · simp [h, h.1, h.2]
    · simp only [if_neg h]
      rcases Decidable.not_and_iff_or_not.mp h with h1 | h1 <;> simp [h1]

theorem mapGet_mapSet (m : List (Int × Option UserStatus)) (id : Int)
    (v : Option UserStatus) : mapGet (mapSet m id v) id = v := by
  induction m with
  | nil => simp [mapSet, mapGet]
  | cons e rest ih =>
    obtain ⟨k, w⟩ := e
    by_cases h : k = id
    · simp [mapSet, mapGet, h]
    · simp [mapSet, mapGet, h, ih]

theorem userMap_addIgnoredExceptions (l : Limiter) (id : Int) :
    (addIgnoredExceptions l id).userMap = l.userMap := by
  unfold addIgnoredExceptions
  split
  · rfl
  · split <;> rfl

theorem mem_addIgnoredExceptions (l : Limiter) (id : Int) :
    id ∈ (addIgnoredExceptions l id).ignoredExceptions := by
  unfold addIgnoredExceptions
  split
  · simp
  · split
    · next h => simpa using h
    · simp

theorem removeFirst_eq_erase (xs : List Int) (id : Int) :
    removeFirst xs id = xs.erase id := by
  induction xs with
  | nil => rfl
  | cons x xs ih =>
    by_cases h : x = id
    · simp [removeFirst, List.erase_cons, h]
    · simp [removeFirst, List.erase_cons, h, ih]

/-- Claim C1, counterexample: a status as created by `AddCustomIgnore`
on a never-seen identity carries an active (indefinite) custom
override, yet `canBeDeleted` is true for it, because the zero
last-seen disjunct fires before the override is consulted.  So a
status with an active custom override is not always
eviction-ineligible, contrary to the claim. -/
theorem canBeDeleted_overridden_cex :
    hasActiveCustom overriddenFresh 5 = true ∧
    (IsCustomLimited overriddenFresh 5).1 = true ∧
    (canBeDeleted overriddenFresh baseLimiter 5).1 = true := by decide

/-- Claim C1 (amended): `canBeDeleted` at instant `now` is true iff the
last-seen instant is zero, or the elapsed time exceeds the window and
the status is neither limited nor carries an active custom override;
in particular a status with NON-ZERO last-seen that is limited or has
an active custom override is never eviction-eligible (a zero last-seen
status is eligible even when limited or overridden). -/
theorem canBeDeleted_spec (s : UserStatus) (l : Limiter) (now : Int) :
    ((canBeDeleted s l now).1 = true ↔
      (s.Last = 0 ∨ (now - s.Last > l.timeout ∧ s.limited = false ∧
        hasActiveCustom s now = false))) ∧
    (s.Last ≠ 0 → (s.limited = true ∨ hasActiveCustom s now = true) →
      (canBeDeleted s l now).1 = false) := by
  constructor
  · unfold canBeDeleted
    by_cases h0 : s.Last = 0
    · simp [h0]
    · by_cases h1 : now - s.Last > l.timeout ∧ s.limited = false
      · simp [h0, h1, h1.1, h1.2, isCustomLimited_fst]
      · simp only [if_neg h0, if_neg h1, eq_comm]
        rcases Decidable.not_and_iff_or_not.mp h1 with h2 | h2 <;> simp [h0, h2]
  · intro h0 h2
    unfold canBeDeleted
    by_cases h1 : now - s.Last > l.timeout ∧ s.limited = false
    · rcases h2 with h2 | h2
      · rw [h2] at h1; simp at h1
      · simp [h0, h1, isCustomLimited_fst, h2]
    · simp [h0, h1]

/-- Claim C1, witness: a limited status seen 90 seconds ago (window
10s) is kept; a never-populated status is evicted. -/
theorem canBeDeleted_spec_witness :
    (canBeDeleted ⟨5 * second, true, none⟩ baseLimiter (100 * second)).1 = false ∧
    (canBeDeleted ⟨0, false, none⟩ baseLimiter 0).1 = true :=
  ⟨(canBeDeleted_spec ⟨5 * second, true, none⟩ baseLimiter (100 * second)).2
      (by decide) (Or.inl rfl),
   ((canBeDeleted_spec ⟨0, false, none⟩ baseLimiter 0).1).mpr (Or.inl rfl)⟩

/-- Claim C2: `IsCustomLimited` is false when no custom record exists;
an expired record (non-zero duration strictly exceeded by the elapsed
time) is cleared and reported false; a zero-duration record never
expires and is reported true; a present, unexpired record is reported
true (and kept). -/
theorem IsCustomLimited_spec (s : UserStatus) (now : Int) :
    (s.custom = none → IsCustomLimited s now = (false, s)) ∧
    (∀ c, s.custom = some c → now - c.startTime > c.duration → c.duration ≠ 0 →
      IsCustomLimited s now = (false, { s with custom := none })) ∧
    (∀ c, s.custom = some c → c.duration = 0 →
      IsCustomLimited s now = (true, s)) ∧
    (∀ c, s.custom = some c → ¬(now - c.startTime > c.duration ∧ c.duration ≠ 0) →
      IsCustomLimited s now = (true, s)) := by
  refine ⟨?_, ?_, ?_, ?_⟩
  · intro h; simp [IsCustomLimited, h]
  · intro c hc h1 h2; simp [IsCustomLimited, hc, h1, h2]
  · intro c hc h0; simp [IsCustomLimited, hc, h0]
  · intro c hc h; simp [IsCustomLimited, hc, h]

/-- Claim C2, witness: an expired 5ns record at elapsed 10ns is cleared
and reported false; a zero-duration record at the same elapsed time is
kept and reported true. -/
theorem IsCustomLimited_spec_witness :
    IsCustomLimited ⟨3, false, some ⟨0, 5, false⟩⟩ 10 = (false, ⟨3, false, none⟩) ∧
    IsCustomLimited ⟨3, false, some ⟨0, 0, false⟩⟩ 10 =
      (true, ⟨3, false, some ⟨0, 0, false⟩⟩) :=
  ⟨(IsCustomLimited_spec ⟨3, false, some ⟨0, 5, false⟩⟩ 10).2.1
      ⟨0, 5, false⟩ rfl (by decide) (by decide),
   (IsCustomLimited_spec ⟨3, false, some ⟨0, 0, false⟩⟩ 10).2.2.1
      ⟨0, 0, false⟩ rfl rfl⟩

/-- Claim C3, counterexample: with punishment 30s and window 10s,
`SetMaxCacheDuration(5s)` clamps the interval to
30s + 10s + 1min = 100s, not the 101s the claim names. -/
theorem SetMaxCacheDuration_clamp_cex :
    (SetMaxCacheDuration baseLimiter (5 * second)).maxTimeout = 100 * second ∧
    (SetMaxCacheDuration baseLimiter (5 * second)).maxTimeout ≠ 101 * second := by
  decide

/-- Claim C3 (amended): `SetMaxCacheDuration(d)` sets the reaper
interval to `d` when `d` strictly exceeds punishment + window, and
otherwise to punishment + window + 1 minute; e.g. with punishment 30s
and window 10s, `SetMaxCacheDuration(5s)` yields 100s, not 5s. -/
theorem SetMaxCacheDuration_spec (l : Limiter) (d : Int) :
    (d > l.punishment + l.timeout →
      (SetMaxCacheDuration l d).maxTimeout = d) ∧
    (d ≤ l.punishment + l.timeout →
      (SetMaxCacheDuration l d).maxTimeout = l.punishment + l.timeout + minute) := by
  constructor
  · intro h; simp [SetMaxCacheDuration, h]
  · intro h; simp [SetMaxCacheDuration, not_lt.mpr h]

/-- Claim C3, witness: 200s exceeds 30s + 10s and is kept; 5s does not
and is clamped to 30s + 10s + 1min = 100s. -/
theorem SetMaxCacheDuration_spec_witness :
    (SetMaxCacheDuration baseLimiter (200 * second)).maxTimeout = 200 * second ∧
    (SetMaxCacheDuration baseLimiter (5 * second)).maxTimeout = 100 * second :=
  ⟨(SetMaxCacheDuration_spec baseLimiter (200 * second)).1 (by decide),
   (SetMaxCacheDuration_spec baseLimiter (5 * second)).2 (by decide)⟩

/-- Claim C4: on a limiter whose registry (map and lock) is present,
`AddCustomIgnore(id, d, ignoreExceptions)` succeeds and installs or
replaces the record `(startTime = now, duration = d, ignoreExceptions)`
on the id's status, creating the entry when absent, and when
`ignoreExceptions` is true the id is afterwards in the
ignored-exceptions list. -/
theorem AddCustomIgnore_spec (l : Limiter) (id d : Int) (ig : Bool) (now : Int)
    (m : List (Int × Option UserStatus))
    (h1 : l.mutex = true) (h2 : l.userMap = some m) :
    ∃ l1 m1 st, AddCustomIgnore l id d ig now = some l1 ∧
      l1.userMap = some m1 ∧ mapGet m1 id = some st ∧
      st.custom = some ⟨now, d, ig⟩ ∧
      (ig = true → id ∈ l1.ignoredExceptions) := by
  unfold AddCustomIgnore
  rw [h1, h2]
  simp only [Bool.true_eq_false, if_false]
  cases hm : mapGet m id with
  | none =>
    cases ig with
    | false =>
      exact ⟨_, mapSet m id (some ⟨0, false, some ⟨now, d, false⟩⟩),
        ⟨0, false, some ⟨now, d, false⟩⟩, rfl, rfl, mapGet_mapSet _ _ _, rfl,
        fun h => Bool.noConfusion h⟩
    | true =>
      exact ⟨_, mapSet m id (some ⟨0, false, some ⟨now, d, true⟩⟩),
        ⟨0, false, some ⟨now, d, true⟩⟩, rfl, userMap_addIgnoredExceptions _ _,
        mapGet_mapSet _ _ _, rfl, fun _ => mem_addIgnoredExceptions _ _⟩
  | some st =>
    cases ig with
    | false =>
      exact ⟨_, mapSet m id (some { st with custom := some ⟨now, d, false⟩ }),
        { st with custom := some ⟨now, d, false⟩ },
        rfl, rfl, mapGet_mapSet _ _ _, rfl, fun h => Bool.noConfusion h⟩
    | true =>
      exact ⟨_, mapSet m id (some { st with custom := some ⟨now, d, true⟩ }),
        { st with custom := some ⟨now, d, true⟩ },
        rfl, userMap_addIgnoredExceptions _ _,
        mapGet_mapSet _ _ _, rfl, fun _ => mem_addIgnoredExceptions _ _⟩

/-- Claim C4, witness: installing an ignore-exceptions override for id
7 on the running base limiter creates its entry with the record
`(0, 1s, true)` and puts 7 in the ignored-exceptions list. -/
theorem AddCustomIgnore_spec_witness :
    ∃ l1 m1 st, AddCustomIgnore baseLimiter 7 second true 0 = some l1 ∧
      l1.userMap = some m1 ∧ mapGet m1 7 = some st ∧
      st.custom = some ⟨0, second, true⟩ ∧
      (true = true → 7 ∈ l1.ignoredExceptions) :=
  AddCustomIgnore_spec baseLimiter 7 second true 0 [] rfl rfl

/-- Claim C5, counterexample: `AddExceptionID` is a plain append; adding
id 5 twice (each a legitimate API call) leaves the exception-ID list
holding 5 twice, so the list does not contain the id at most once. -/
theorem AddExceptionID_dup_cex :
    (AddExceptionID (AddExceptionID baseLimiter [5]) [5]).exceptionIDs = [5, 5] ∧
    ¬((AddExceptionID (AddExceptionID baseLimiter [5]) [5]).exceptionIDs.count 5 ≤ 1) := by
  decide

/-- Claim C5 (amended): `AddExceptionID` appends the given ids to the
exception-ID list unconditionally, with no duplicate check, so an id
already present appears again after the call. -/
theorem AddExceptionID_spec (l : Limiter) (ids : List Int) :
    (AddExceptionID l ids).exceptionIDs = l.exceptionIDs ++ ids := rfl

/-- Claim C6, counterexample: after `Stop` on the started base limiter
(map and lock released), `GetStatus`, `AddCustomIgnore` and
`RemoveCustomIgnore` all dereference the nil mutex — a fault (`none`),
not a quiet return. -/
theorem stopped_registry_fault_cex :
    (Stop baseLimiter).userMap = none ∧ (Stop baseLimiter).mutex = false ∧
    GetStatus (Stop baseLimiter) 1 = none ∧
    AddCustomIgnore (Stop baseLimiter) 1 second true 0 = none ∧
    RemoveCustomIgnore (Stop baseLimiter) 1 = none := by decide

/-- Claim C6 (amended): of the operations observing a torn-down
registry, only the reaper-loop iteration exits quietly (its body checks
for a nil map or lock before touching them); `GetStatus`,
`AddCustomIgnore` and `RemoveCustomIgnore` lock the nil mutex and
fault. -/
theorem tornDownRegistry_spec (l : Limiter) (id d now : Int) (ig : Bool)
    (h : l.mutex = false) :
    GetStatus l id = none ∧ AddCustomIgnore l id d ig now = none ∧
    RemoveCustomIgnore l id = none ∧
    checkerAfterSleep l now = some (StepKind.exitLoop, l) := by
  refine ⟨?_, ?_, ?_, ?_⟩ <;>
    simp [GetStatus, AddCustomIgnore, RemoveCustomIgnore, checkerAfterSleep, h]

/-- Claim C6, witness: on a limiter with a nil lock, the three
registry operations fault while the reaper iteration exits quietly. -/
theorem tornDownRegistry_spec_witness :
    GetStatus noLockLimiter 1 = none ∧
    AddCustomIgnore noLockLimiter 1 second true 0 = none ∧
    RemoveCustomIgnore noLockLimiter 1 = none ∧
    checkerAfterSleep noLockLimiter 0 = some (StepKind.exitLoop, noLockLimiter) :=
  tornDownRegistry_spec noLockLimiter 1 second 0 true rfl

/-- Claim C7, counterexample: a running limiter misconfigured with
punishment -1min (set through `SetPunishmentDuration`), window 0 and
interval 0 resets its sub-second interval to the default
punishment + window + 1min = 0, so the reaper-loop iteration sleeps
for 0 — below one second — refuting "always at least one second". -/
theorem checkerSleep_subsecond_cex :
    hotLimiter.isEnabled = true ∧ hotLimiter.isStopped = false ∧
    checkerStep hotLimiter 0 = some (some 0, StepKind.continueLoop, hotLimiter) ∧
    (0 : Int) < second := by decide

/-- Claim C7 (amended): a sub-second reaper interval is reset to the
default punishment + window + 1 minute before the sleep (an interval of
one second or more is kept), and when the punishment and window
durations are non-negative the interval actually slept is at least one
second. -/
theorem checkerPreSleep_spec (l : Limiter) :
    (l.maxTimeout < second → checkerPreSleep l = SetDefaultInterval l) ∧
    (second ≤ l.maxTimeout → checkerPreSleep l = l) ∧
    (0 ≤ l.punishment → 0 ≤ l.timeout →
      second ≤ (checkerPreSleep l).maxTimeout) := by
  refine ⟨?_, ?_, ?_⟩
  · intro h; simp [checkerPreSleep, h]
  · intro h; simp [checkerPreSleep, not_lt.mpr h]
  · intro hp ht
    unfold checkerPreSleep
    split
    · next h =>
      have hs : (0 : Int) < second := by decide
      have hm : minute = 60 * second := rfl
      simp only [SetDefaultInterval]
      linarith
    · next h => exact not_lt.mp h

/-- Claim C7, witness: the base limiter with interval 0 gets the
default interval 30s + 10s + 1min, which is at least one second. -/
theorem checkerPreSleep_spec_witness :
    checkerPreSleep { baseLimiter with maxTimeout := 0 } =
      SetDefaultInterval { baseLimiter with maxTimeout := 0 } ∧
    second ≤ (checkerPreSleep { baseLimiter with maxTimeout := 0 }).maxTimeout :=
  ⟨(checkerPreSleep_spec { baseLimiter with maxTimeout := 0 }).1 (by decide),
   (checkerPreSleep_spec { baseLimiter with maxTimeout := 0 }).2.2
      (by decide) (by decide)⟩

/-- Claim C8, counterexample: on a non-stopped limiter whose mutex
pointer is nil but whose map is present, `Stop` flips the flags yet
leaves the registry map in place, so the map is not released. -/
theorem Stop_no_lock_cex :
    noLockLimiter.isStopped = false ∧ (Stop noLockLimiter).userMap ≠ none := by
  decide

/-- Claim C8 (amended): `Stop` on a non-stopped limiter sets enabled to
false and stopped to true and leaves every configuration field
(timeout, punishment, max count, reaper interval, text-only flag,
exception-ID list, ignored-exceptions list, condition list,
exception-predicate list, trigger list) unchanged; when the lock is
present, the registry map and the lock are additionally both
released (set to nil). -/
theorem Stop_spec (l : Limiter) (h1 : l.isStopped = false) :
    ((Stop l).isEnabled = false ∧ (Stop l).isStopped = true ∧
     (Stop l).timeout = l.timeout ∧ (Stop l).punishment = l.punishment ∧
     (Stop l).maxCount = l.maxCount ∧ (Stop l).maxTimeout = l.maxTimeout ∧
     (Stop l).TextOnly = l.TextOnly ∧ (Stop l).exceptionIDs = l.exceptionIDs ∧
     (Stop l).ignoredExceptions = l.ignoredExceptions ∧
     (Stop l).conditions = l.conditions ∧ (Stop l).exceptions = l.exceptions ∧
     (Stop l).triggers = l.triggers) ∧
    (l.mutex = true → (Stop l).userMap = none ∧ (Stop l).mutex = false) := by
  unfold Stop
  rw [h1]
  by_cases hm : l.mutex
  · simp [hm]
  · simp [hm]

/-- Claim C8, witness: stopping the running base limiter clears the
enabled flag, keeps the window, and releases map and lock. -/
theorem Stop_spec_witness :
    (Stop baseLimiter).isEnabled = false ∧
    (Stop baseLimiter).timeout = baseLimiter.timeout ∧
    (Stop baseLimiter).userMap = none ∧ (Stop baseLimiter).mutex = false :=
  ⟨(Stop_spec baseLimiter rfl).1.1, (Stop_spec baseLimiter rfl).1.2.2.1,
   (Stop_spec baseLimiter rfl).2 rfl⟩

/-- Claim C9: `addIgnoredExceptions` leaves the ignored-exceptions
list unchanged when the id is present and appends it exactly once
otherwise; `removeFromIgnoredExceptions` removes exactly the first
occurrence (no change when absent); hence both preserve
duplicate-freedom. -/
theorem ignoredExceptions_ops_spec (l : Limiter) (id : Int) :
    (id ∈ l.ignoredExceptions →
      (addIgnoredExceptions l id).ignoredExceptions = l.ignoredExceptions) ∧
    (id ∉ l.ignoredExceptions →
      (addIgnoredExceptions l id).ignoredExceptions = l.ignoredExceptions ++ [id]) ∧
    (removeFromIgnoredExceptions l id).ignoredExceptions =
      l.ignoredExceptions.erase id ∧
    (id ∉ l.ignoredExceptions →
      (removeFromIgnoredExceptions l id).ignoredExceptions = l.ignoredExceptions) ∧
    (l.ignoredExceptions.Nodup →
      (addIgnoredExceptions l id).ignoredExceptions.Nodup ∧
      (removeFromIgnoredExceptions l id).ignoredExceptions.Nodup) := by
  have herase : (removeFromIgnoredExceptions l id).ignoredExceptions =
      l.ignoredExceptions.erase id := by
    unfold removeFromIgnoredExceptions
    split
    · next h => simp_all
    · next h => exact removeFirst_eq_erase _ _
  have hmem : id ∈ l.ignoredExceptions →
      (addIgnoredExceptions l id).ignoredExceptions = l.ignoredExceptions := by
    intro h
    unfold addIgnoredExceptions
    split
    · next he => simp_all
    · split
      · rfl
      · next _ hc => exact absurd (by simpa using h) hc
  have hnomem : id ∉ l.ignoredExceptions →
      (addIgnoredExceptions l id).ignoredExceptions =
        l.ignoredExceptions ++ [id] := by
    intro h
    unfold addIgnoredExceptions
    split
    · rfl
    · split
      · next _ hc => exact absurd (by simpa using hc) h
      · rfl
  refine ⟨hmem, hnomem, herase, ?_, ?_⟩
  · intro h; rw [herase, List.erase_of_not_mem h]
  · intro hd
    constructor
    · by_cases h : id ∈ l.ignoredExceptions
      · rw [hmem h]; exact hd
      · rw [hnomem h]
        simp [List.nodup_append, hd, h]
    · rw [herase]; exact hd.erase id

/-- Claim C9, witness: on the list [5, 6], adding 5 changes nothing,
adding 7 appends it once, removing 5 leaves [6], and both results are
duplicate-free. -/
theorem ignoredExceptions_ops_spec_witness :
    (addIgnoredExceptions ignoredPair 5).ignoredExceptions = [5, 6] ∧
    (addIgnoredExceptions ignoredPair 7).ignoredExceptions = [5, 6, 7] ∧
    (removeFromIgnoredExceptions ignoredPair 5).ignoredExceptions = [6] ∧
    (addIgnoredExceptions ignoredPair 7).ignoredExceptions.Nodup :=
  ⟨(ignoredExceptions_ops_spec ignoredPair 5).1 (by decide),
   (ignoredExceptions_ops_spec ignoredPair 7).2.1 (by decide),
   (ignoredExceptions_ops_spec ignoredPair 5).2.2.1,
   ((ignoredExceptions_ops_spec ignoredPair 7).2.2.2.2 (by decide)).1⟩

/-- Claim C10: `isException` is false whenever the message pointer is
nil or the exception-ID list is empty, and `isExceptionQuery` is false
whenever the callback-query pointer is nil or the exception-ID list is
empty. -/
theorem isException_nil_spec (l : Limiter) (msg : Option Message)
    (cq : Option CallbackQuery) :
    ((msg = none ∨ l.exceptionIDs = []) → isException l msg = false) ∧
    ((cq = none ∨ l.exceptionIDs = []) → isExceptionQuery l cq = false) := by
  constructor
  · rintro (h | h) <;> simp [isException, h]
  · rintro (h | h) <;> simp [isExceptionQuery, h]

/-- Claim C10, witness: a nil message with a non-empty exception list,
and a real callback query with an empty exception list, are both
reported non-exception. -/
theorem isException_nil_spec_witness :
    isException { baseLimiter with exceptionIDs := [9] } none = false ∧
    isExceptionQuery baseLimiter (some ⟨⟨1⟩, none⟩) = false :=
  ⟨(isException_nil_spec { baseLimiter with exceptionIDs := [9] } none none).1
      (Or.inl rfl),
   (isException_nil_spec baseLimiter none (some ⟨⟨1⟩, none⟩)).2 (Or.inr rfl)⟩

end Ratelimiter
